import Mathlib

/-!
Verification of the eventsub webhook verification pipeline
(`eventsub-common/src/headers.rs` and
`actix-web-eventsub/src/extractors/eventsub.rs`).

Shallow embedding conventions:
* bytes are `Nat` (values < 256 where it matters);
* header values are byte lists; the header map is a record of the six
  headers the code reads;
* external crates (chrono's RFC3339 parsing, the HMAC-SHA256 primitive,
  serde_json's deserialization, the host's replay guard) are parameters of
  the pipeline, collected in `Config`;
* time is modelled in whole seconds (`Int`); `chrono::Duration::minutes 10`
  is 600 seconds;
* the asynchronous poll loop of `VerifyDecodeFut` is modelled by folding
  over the list of stream items, which is exactly the sequence of values the
  body stream yields.
-/

namespace Eventsub

/-- A byte string: list of naturals (each < 256 where relevant). -/
abbrev Bytes := List Nat

/-- `MessageType` from `eventsub-common/src/lib.rs`. -/
inductive MessageType where
  | notification
  | verification
  | revocation
deriving DecidableEq

/-- `HeaderType` from `eventsub-common/src/headers.rs`. -/
inductive HeaderType where
  | id
  | messageType
  | signature
  | timestamp
  | subscriptionVersion
  | subscriptionType
deriving DecidableEq

/-- `InvalidHeaders` from `eventsub-common/src/headers.rs`.
`versionMismatch` and `wrongSubscriptionType` carry the expected string
(as bytes), mirroring the `&'static str` payloads. -/
inductive InvalidHeaders where
  | missing (t : HeaderType)
  | signatureTooShort
  | signatureNotHex
  | versionMismatch (expected : Bytes)
  | badTimestamp
  | messageTooOld
  | badMessageType
  | wrongSubscriptionType (expected : Bytes)
deriving DecidableEq

/-- The bytes of the literal `"sha256="` (7 bytes). -/
def sha256Tag : Bytes := [115, 104, 97, 50, 53, 54, 61]

/-- The bytes of `"notification"`. -/
def notificationStr : Bytes := [110, 111, 116, 105, 102, 105, 99, 97, 116, 105, 111, 110]

/-- The bytes of `"webhook_callback_verification"`. -/
def verificationStr : Bytes :=
  [119, 101, 98, 104, 111, 111, 107, 95, 99, 97, 108, 108, 98, 97, 99, 107, 95,
   118, 101, 114, 105, 102, 105, 99, 97, 116, 105, 111, 110]

/-- The bytes of `"revocation"`. -/
def revocationStr : Bytes := [114, 101, 118, 111, 99, 97, 116, 105, 111, 110]

/-- `TryFrom<&HeaderValue> for MessageType` (`eventsub-common/src/lib.rs`):
byte-exact match against the three known strings, anything else is an error
(including header values that fail `to_str`, since the three strings are
visible ASCII). -/
def messageTypeOfBytes (b : Bytes) : Option MessageType :=
  if b = notificationStr then some .notification
  else if b = verificationStr then some .verification
  else if b = revocationStr then some .revocation
  else none

/-- Value of one hex digit (`0-9`, `a-f`, `A-F`), as in the `hex` crate. -/
def hexVal (c : Nat) : Option Nat :=
  if 48 ≤ c ∧ c ≤ 57 then some (c - 48)
  else if 97 ≤ c ∧ c ≤ 102 then some (c - 87)
  else if 65 ≤ c ∧ c ≤ 70 then some (c - 55)
  else none

/-- `hex::decode`: fails on odd length or any non-hex character; imposes no
length bound beyond evenness. -/
def hexDecode : Bytes → Option Bytes
  | [] => some []
  | [_] => none
  | a :: b :: rest =>
    match hexVal a, hexVal b, hexDecode rest with
    | some hi, some lo, some r => some ((hi * 16 + lo) :: r)
    | _, _, _ => none

/-- Lower-case hex digit character for a nibble. -/
def hexDigitChar (n : Nat) : Nat := if n < 10 then 48 + n else 87 + n

/-- `hex::encode` (lower-case). -/
def hexEncode : Bytes → Bytes
  | [] => []
  | b :: rest => hexDigitChar (b / 16 % 16) :: hexDigitChar (b % 16) :: hexEncode rest

/-- `PayloadHeaders` (`eventsub-common/src/headers.rs`). -/
structure PayloadHeaders where
  signature : Bytes
  messageType : MessageType
deriving DecidableEq

/-- `ParsedHeaders` (`eventsub-common/src/headers.rs`). -/
structure ParsedHeaders where
  payload : PayloadHeaders
  idBytes : Bytes
  timestampBytes : Bytes
deriving DecidableEq

/-- The header map, restricted to the six headers `HeaderMapExt` reads;
`none` models an absent header. -/
structure HeaderMap where
  subscriptionType : Option Bytes
  subscriptionVersion : Option Bytes
  signature : Option Bytes
  messageType : Option Bytes
  id : Option Bytes
  timestamp : Option Bytes

/-- The static `EventSubscription` descriptor: the expected
`(EVENT_TYPE, VERSION)` pair of the configured payload type `P`. -/
structure EventSub where
  eventType : Bytes
  version : Bytes

/-- `read_eventsub_headers` (`eventsub-common/src/headers.rs`), with chrono's
RFC3339 parsing (composed with `HeaderValue::to_str`) abstracted as
`parseTs` and `Utc::now()` abstracted as `now` (whole seconds). -/
def readEventsubHeaders (P : EventSub) (parseTs : Bytes → Option Int) (now : Int)
    (h : HeaderMap) : Except InvalidHeaders ParsedHeaders :=
  match h.subscriptionType with
  | none => .error (.wrongSubscriptionType P.eventType)
  | some st =>
    if st ≠ P.eventType then .error (.wrongSubscriptionType P.eventType)
    else
      match h.messageType with
      | none => .error (.missing .messageType)
      | some mtb =>
        match messageTypeOfBytes mtb with
        | none => .error .badMessageType
        | some mt =>
          match h.signature with
          | none => .error (.missing .signature)
          | some raw =>
            if raw.length ≤ 7 ∨ raw.take 7 ≠ sha256Tag then .error .signatureTooShort
            else
              match hexDecode (raw.drop 7) with
              | none => .error .signatureNotHex
              | some sigBytes =>
                match h.subscriptionVersion with
                | none => .error (.missing .subscriptionVersion)
                | some vb =>
                  if vb ≠ P.version then .error (.versionMismatch P.version)
                  else
                    match h.id with
                    | none => .error (.missing .id)
                    | some idb =>
                      match h.timestamp with
                      | none => .error (.missing .timestamp)
                      | some tsb =>
                        match parseTs tsb with
                        | none => .error .badTimestamp
                        | some t =>
                          if now - t > 600 then .error .messageTooOld
                          else .ok ⟨⟨sigBytes, mt⟩, idb, tsb⟩

/-- One item yielded by the body stream: a data chunk, or a transport-level
read error (`PayloadError`). -/
inductive ChunkItem where
  | chunk (data : Bytes)
  | ioErr
deriving DecidableEq

/-- `VerifyDecodeError` (`actix-web-eventsub/src/extractors/eventsub.rs`).
Error payloads that come from external crates (`PayloadError`,
`serde_json::Error`, `InvalidLength`) are dropped. -/
inductive VerifyDecodeError where
  | headers (e : InvalidHeaders)
  | signatureMismatch
  | requestTooLarge
  | payloadError
  | serde
  | noHmacKey
  | hmacInit
  | versionMismatch (expected : Bytes)
  | idNotUtf8
  | wontHandleId
deriving DecidableEq

/-- The collaborators a `Config` implementation and the external crates
supply to the pipeline, specialized to payload type `α`:
`secret` is `get_secret` (`none` models the no-key error case),
`hmacSha256` the HMAC-SHA256 primitive (key → message → MAC bytes),
`decodePayload` serde_json deserialization of the variant chosen by the
message type, `checkEventId` the resolved value of the replay-guard future
on the id bytes, `parseTimestamp` chrono's RFC3339 parsing, and `now` the
wall clock at validation time (whole seconds). -/
structure Config (α : Type) where
  secret : Option Bytes
  hmacSha256 : Bytes → Bytes → Bytes
  decodePayload : MessageType → Bytes → Option α
  checkEventId : Bytes → Bool
  parseTimestamp : Bytes → Option Int
  now : Int

/-- `HeaderValue::to_str` succeeds exactly on visible-ASCII bytes
(32–126) and horizontal tab; the id header must pass this before the
replay guard is invoked. -/
def toStrOk (b : Nat) : Bool := (32 ≤ b && b < 127) || b == 9

/-- Whether a whole header value passes `HeaderValue::to_str`. -/
def headerToStr (bs : Bytes) : Bool := bs.all toStrOk

/-- The chunk-consuming loop of `VerifyDecodeFut::poll` in state
`DecodingResponse`: `bytes` is the `BytesMut` buffer, `macIn` the whole
sequence of bytes fed to `mac.update` so far.  On a chunk, the code first
checks `bytes.len() >= 10_000_000`, and only then appends the chunk to the
buffer and feeds it to the MAC; a stream error maps to `PayloadError`; end
of stream returns the buffer and the accumulated MAC input. -/
def pollBody : Bytes → Bytes → List ChunkItem → Except VerifyDecodeError (Bytes × Bytes)
  | bytes, macIn, [] => .ok (bytes, macIn)
  | bytes, macIn, .chunk c :: rest =>
    if 10000000 ≤ bytes.length then .error .requestTooLarge
    else pollBody (bytes ++ c) (macIn ++ c) rest
  | _, _, .ioErr :: _ => .error .payloadError

/-- The end-of-stream stage of `VerifyDecodeFut::poll`: finalize the MAC
over everything fed to it and compare with the decoded signature header
(`verify_slice`, an equality of byte strings); then deserialize the variant
selected by the message type; then convert the id header with `to_str`
(serde failure takes precedence, as in the `(Err(e), _)` match arm); then
dispatch on the replay guard. -/
def finishStream {α : Type} (T : Config α) (headers : PayloadHeaders)
    (idBytes : Bytes) (key : Bytes) (macIn : Bytes) (bytes : Bytes) :
    Except VerifyDecodeError α :=
  if T.hmacSha256 key macIn ≠ headers.signature then .error .signatureMismatch
  else
    match T.decodePayload headers.messageType bytes, headerToStr idBytes with
    | none, _ => .error .serde
    | some _, false => .error .idNotUtf8
    | some p, true => if T.checkEventId idBytes then .ok p else .error .wontHandleId

/-- The whole extraction: `Data::from_request` (header validation, then
`init_mac`, which keys the MAC with the secret and feeds it `id_bytes` then
`timestamp_bytes`) followed by driving `VerifyDecodeFut` to completion over
the given body stream.  `Hmac::<Sha256>::new_from_slice` accepts keys of any
length, so `HmacInit` cannot occur and MAC initialization is modelled as
always succeeding. -/
def extract {α : Type} (P : EventSub) (T : Config α) (h : HeaderMap)
    (body : List ChunkItem) : Except VerifyDecodeError α :=
  match readEventsubHeaders P T.parseTimestamp T.now h with
  | .error e => .error (.headers e)
  | .ok parsed =>
    match T.secret with
    | none => .error .noHmacKey
    | some key =>
      match pollBody [] (parsed.idBytes ++ parsed.timestampBytes) body with
      | .error e => .error e
      | .ok (bytes, macIn) => finishStream T parsed.payload parsed.idBytes key macIn bytes

deriving instance DecidableEq for Except

/-- Whether a byte is a UTF-8 continuation byte (`0x80`–`0xBF`). -/
def contB (b : Nat) : Bool := 128 ≤ b && b ≤ 191

/-- Lead-byte classification per RFC 3629: for a non-ASCII lead byte,
the number of continuation bytes and the allowed range of the first one
(later continuation bytes always range over `0x80`-`0xBF`). -/
def utf8Lead (b : Nat) : Option (Nat × Nat × Nat) :=
  if 194 ≤ b ∧ b ≤ 223 then some (1, 128, 191)
  else if b = 224 then some (2, 160, 191)
  else if 225 ≤ b ∧ b ≤ 236 then some (2, 128, 191)
  else if b = 237 then some (2, 128, 159)
  else if 238 ≤ b ∧ b ≤ 239 then some (2, 128, 191)
  else if b = 240 then some (3, 144, 191)
  else if 241 ≤ b ∧ b ≤ 243 then some (3, 128, 191)
  else if b = 244 then some (3, 128, 143)
  else none

/-- UTF-8 validity of a byte string per RFC 3629 (shortest-form, no
surrogates).  This is the notion of "valid UTF-8" the specification uses
when describing the id check; the code itself checks the stricter
`HeaderValue::to_str` condition, see `headerToStr`. -/
def utf8Valid : Bytes → Bool
  | [] => true
  | b :: rest =>
    if b ≤ 127 then utf8Valid rest
    else
      match utf8Lead b, rest with
      | some (1, lo, hi), c :: r => (lo ≤ c && c ≤ hi) && utf8Valid r
      | some (2, lo, hi), c :: d :: r => (lo ≤ c && c ≤ hi) && (contB d && utf8Valid r)
      | some (3, lo, hi), c :: d :: e :: r =>
        (lo ≤ c && c ≤ hi) && (contB d && (contB e && utf8Valid r))
      | _, _ => false

/-- The length of the largest data chunk in a stream (0 if none). -/
def maxChunkLen (items : List ChunkItem) : Nat :=
  items.foldr (fun i acc => match i with | .chunk c => max c.length acc | .ioErr => acc) 0

/-! Concrete data used by witnesses and counterexamples. -/

/-- A sample subscription descriptor: event type `"x"`, version `"1"`. -/
def sampleP : EventSub := ⟨[120], [49]⟩

/-- A sample configuration over payload type `Nat`: the MAC primitive
always produces the one-byte MAC `[0]`, deserialization always succeeds
with payload `7`, the replay guard accepts, every timestamp parses to `0`,
and the clock reads `0`. -/
def cfg0 : Config Nat :=
  { secret := some [1, 2]
    hmacSha256 := fun _ _ => [0]
    decodePayload := fun _ _ => some 7
    checkEventId := fun _ => true
    parseTimestamp := fun _ => some 0
    now := 0 }

/-- Like `cfg0` but deserialization always fails. -/
def cfgD : Config Nat := { cfg0 with decodePayload := fun _ _ => none }

/-- Like `cfg0` but the replay guard rejects every id. -/
def cfgF : Config Nat := { cfg0 with checkEventId := fun _ => false }

/-- Like `cfg0` but deserialization yields payload `5`. -/
def cfg4 : Config Nat := { cfg0 with decodePayload := fun _ _ => some 5 }

/-- Like `cfg0` but timestamp `"0"` parses to time `0` while any other
timestamp parses to time `2`, and the clock reads `601`. -/
def cfg7 : Config Nat :=
  { cfg0 with
    parseTimestamp := fun b => if b = [48] then some 0 else some 2
    now := 601 }

/-- A sample header map that passes validation against `sampleP` and
`cfg0`: signature header `"sha256=00"` (decoding to the MAC `[0]`),
message type `"notification"`, id `"a"`, timestamp `"b"`. -/
def hdr0 : HeaderMap :=
  { subscriptionType := some [120]
    subscriptionVersion := some [49]
    signature := some (sha256Tag ++ [48, 48])
    messageType := some notificationStr
    id := some [97]
    timestamp := some [98] }

/-- Like `hdr0` but the id header is the two UTF-8 bytes of `é`
(`0xC3 0xA9`), which is valid UTF-8 but not visible ASCII. -/
def hdr8 : HeaderMap := { hdr0 with id := some [195, 169] }

/-- The `ParsedHeaders` value that validating `hdr0` produces. -/
def parsed0 : ParsedHeaders := ⟨⟨[0], .notification⟩, [97], [98]⟩

/-! ### General lemmas about the embedded operations (shared helpers) -/

/-- A single chunk starting from an empty buffer is always appended in full:
the size check looks at the buffer before appending. -/
theorem pollBody_single (macIn c : Bytes) :
    pollBody [] macIn [.chunk c] = .ok (c, macIn ++ c) := by
  simp [pollBody]

/-- Streaming any list of non-empty chunks whose total size (together with
what is already buffered) stays within the bound accumulates the whole
concatenation, in the buffer and in the MAC input alike. -/
theorem pollBody_flatten (chunks : List Bytes) :
    ∀ (bytes macIn : Bytes), (∀ c ∈ chunks, c ≠ []) →
    bytes.length + chunks.flatten.length ≤ 10000000 →
    pollBody bytes macIn (chunks.map .chunk) =
      .ok (bytes ++ chunks.flatten, macIn ++ chunks.flatten) := by
  induction chunks with
  | nil => intro bytes macIn _ _; simp [pollBody]
  | cons c rest ih =>
    intro bytes macIn hne hlen
    have hc : c ≠ [] := hne c (by simp)
    have hc1 : 1 ≤ c.length := by
      cases c with
      | nil => exact absurd rfl hc
      | cons a t => simp
    simp only [List.flatten_cons, List.length_append] at hlen
    have hlt : ¬ (10000000 ≤ bytes.length) := by omega
    simp only [List.map_cons, pollBody, hlt, if_false]
    rw [ih (bytes ++ c) (macIn ++ c) (fun x hx => hne x (by simp [hx]))
      (by simp only [List.length_append]; omega)]
    simp [List.append_assoc]

/-- Decoding a digit produced by `hexDigitChar` recovers the nibble. -/
theorem hexVal_hexDigitChar (n : Nat) (h : n < 16) : hexVal (hexDigitChar n) = some n := by
  unfold hexDigitChar
  split
  · unfold hexVal; rw [if_pos (by omega)]; congr 1; omega
  · unfold hexVal; rw [if_neg (by omega), if_pos (by omega)]; congr 1; omega

/-- `hex::decode` inverts `hex::encode` on byte strings. -/
theorem hexDecode_hexEncode (bs : Bytes) (h : ∀ b ∈ bs, b < 256) :
    hexDecode (hexEncode bs) = some bs := by
  induction bs with
  | nil => rfl
  | cons b rest ih =>
    have hb : b < 256 := h b (by simp)
    simp only [hexEncode, hexDecode]
    rw [hexVal_hexDigitChar _ (by omega), hexVal_hexDigitChar _ (by omega),
      ih (fun x hx => h x (by simp [hx]))]
    show some ((b / 16 % 16 * 16 + b % 16) :: rest) = some (b :: rest)
    have heq : b / 16 % 16 * 16 + b % 16 = b := by omega
    rw [heq]

/-- A successful hex decode consumes exactly two input characters per
output byte. -/
theorem hexDecode_length : ∀ (l r : Bytes), hexDecode l = some r → l.length = 2 * r.length
  | [], r, hr => by cases hr; rfl
  | [_], r, hr => by cases hr
  | a :: b :: rest, r, hr => by
    unfold hexDecode at hr
    cases hhi : hexVal a <;> rw [hhi] at hr
    · cases hr
    cases hlo : hexVal b <;> rw [hlo] at hr
    · cases hr
    cases hre : hexDecode rest <;> rw [hre] at hr
    · cases hr
    cases hr
    have hlen := hexDecode_length rest _ hre
    simp only [List.length_cons, hlen]
    omega

/-- If all header-validation checks pass (stated field by field), header
validation succeeds and returns exactly the decoded signature, the parsed
message type, and the borrowed id/timestamp bytes. -/
theorem read_ok_of (P : EventSub) (pts : Bytes → Option Int) (now : Int)
    (h : HeaderMap) (mtb : Bytes) (mt : MessageType) (raw sigB : Bytes)
    (idb tsb : Bytes) (t : Int)
    (hst : h.subscriptionType = some P.eventType)
    (hmt : h.messageType = some mtb)
    (hmt2 : messageTypeOfBytes mtb = some mt)
    (hsig : h.signature = some raw)
    (hlen : 7 < raw.length)
    (htag : raw.take 7 = sha256Tag)
    (hhex : hexDecode (raw.drop 7) = some sigB)
    (hv : h.subscriptionVersion = some P.version)
    (hid : h.id = some idb)
    (hts : h.timestamp = some tsb)
    (hpt : pts tsb = some t)
    (hfresh : now - t ≤ 600) :
    readEventsubHeaders P pts now h = .ok ⟨⟨sigB, mt⟩, idb, tsb⟩ := by
  simp only [readEventsubHeaders, hst, hmt, hmt2, hsig, hhex, hv, hid, hts, hpt, htag]
  rw [if_neg (by simp), if_neg (by simp [htag]; omega), if_neg (by simp), if_neg (by omega)]

/-- Inversion: whatever a successful header validation returned must have
come from headers of exactly this shape. -/
theorem read_ok_inv (P : EventSub) (pts : Bytes → Option Int) (now : Int)
    (h : HeaderMap) (parsed : ParsedHeaders)
    (hr : readEventsubHeaders P pts now h = .ok parsed) :
    h.subscriptionType = some P.eventType ∧
    (∃ mtb, h.messageType = some mtb ∧
      messageTypeOfBytes mtb = some parsed.payload.messageType) ∧
    (∃ raw, h.signature = some raw ∧ 7 < raw.length ∧ raw.take 7 = sha256Tag ∧
      hexDecode (raw.drop 7) = some parsed.payload.signature) ∧
    h.subscriptionVersion = some P.version ∧
    h.id = some parsed.idBytes ∧
    h.timestamp = some parsed.timestampBytes ∧
    (∃ t, pts parsed.timestampBytes = some t ∧ now - t ≤ 600) := by
  unfold readEventsubHeaders at hr
  repeat first
  | exact Except.noConfusion hr
  | split at hr
  cases hr
  simp_all

/-- The end-of-stream stage can only answer with a signature/decoding/id/
replay verdict, never with a size, transport, header, or key error. -/
theorem finishStream_cases {α : Type} (T : Config α) (hd : PayloadHeaders)
    (idb key macIn bytes : Bytes) :
    finishStream T hd idb key macIn bytes = .error .signatureMismatch ∨
    finishStream T hd idb key macIn bytes = .error .serde ∨
    finishStream T hd idb key macIn bytes = .error .idNotUtf8 ∨
    finishStream T hd idb key macIn bytes = .error .wontHandleId ∨
    ∃ p, finishStream T hd idb key macIn bytes = .ok p := by
  unfold finishStream
  split
  · exact Or.inl rfl
  split
  · exact Or.inr (Or.inl rfl)
  · exact Or.inr (Or.inr (Or.inl rfl))
  · split
    · exact Or.inr (Or.inr (Or.inr (Or.inr ⟨_, rfl⟩)))
    · exact Or.inr (Or.inr (Or.inr (Or.inl rfl)))

/-- Bytes accepted by `HeaderValue::to_str` form valid UTF-8 (they are all
ASCII); the converse fails. -/
theorem headerToStr_utf8Valid (bs : Bytes) :
    headerToStr bs = true → utf8Valid bs = true := by
  induction bs with
  | nil => intro _; rfl
  | cons b rest ih =>
    intro hall
    simp only [headerToStr, List.all_cons, Bool.and_eq_true] at hall
    have hb : b ≤ 127 := by
      rcases hall with ⟨h1, _⟩
      simp only [toStrOk, Bool.or_eq_true, Bool.and_eq_true, decide_eq_true_eq,
        beq_iff_eq] at h1
      omega
    rw [utf8Valid.eq_def]
    simp only [if_pos hb]
    exact ih hall.2

/-- Dropping the `"sha256="` tag from a tagged string leaves the payload. -/
theorem drop_sha256Tag (x : Bytes) : (sha256Tag ++ x).drop 7 = x := rfl

/-- After successful header validation and secret lookup, the pipeline is
the body loop (seeded with the id and timestamp bytes as MAC input)
followed by the end-of-stream stage. -/
theorem extract_ok_parts {α : Type} (P : EventSub) (T : Config α) (h : HeaderMap)
    (parsed : ParsedHeaders) (key : Bytes)
    (hread : readEventsubHeaders P T.parseTimestamp T.now h = .ok parsed)
    (hkey : T.secret = some key) (body : List ChunkItem) :
    extract P T h body =
      match pollBody [] (parsed.idBytes ++ parsed.timestampBytes) body with
      | .error e => .error e
      | .ok (bytes, macIn) => finishStream T parsed.payload parsed.idBytes key macIn bytes := by
  unfold extract
  rw [hread, hkey]

/-- After successful header validation, a missing secret yields
`NoHmacKey`. -/
theorem extract_noKey {α : Type} (P : EventSub) (T : Config α) (h : HeaderMap)
    (parsed : ParsedHeaders)
    (hread : readEventsubHeaders P T.parseTimestamp T.now h = .ok parsed)
    (hkey : T.secret = none) (body : List ChunkItem) :
    extract P T h body = .error .noHmacKey := by
  unfold extract
  rw [hread, hkey]

/-- A failed header validation makes the whole pipeline fail with that
header error, whatever the body holds. -/
theorem extract_headerFail {α : Type} (P : EventSub) (T : Config α) (h : HeaderMap)
    (e : InvalidHeaders)
    (hread : readEventsubHeaders P T.parseTimestamp T.now h = .error e)
    (body : List ChunkItem) :
    extract P T h body = .error (.headers e) := by
  unfold extract
  rw [hread]

/-- A second chunk that arrives once the buffer already holds at least the
bound is rejected, whatever it contains. -/
theorem pollBody_two_large (c d : Bytes) (rest : List ChunkItem) (macIn : Bytes)
    (hc : 10000000 ≤ c.length) :
    pollBody [] macIn (.chunk c :: .chunk d :: rest) = .error .requestTooLarge := by
  unfold pollBody
  rw [if_neg (by simp)]
  simp only [List.nil_append]
  unfold pollBody
  rw [if_pos hc]

/-- When the computed MAC agrees with the declared signature, the
end-of-stream stage moves on to payload decoding. -/
theorem finishStream_sig_eq {α : Type} (T : Config α) (hd : PayloadHeaders)
    (idb key macIn bytes : Bytes)
    (hs : T.hmacSha256 key macIn = hd.signature) :
    finishStream T hd idb key macIn bytes =
      (match T.decodePayload hd.messageType bytes, headerToStr idb with
       | none, _ => .error .serde
       | some _, false => .error .idNotUtf8
       | some p, true => if T.checkEventId idb then .ok p else .error .wontHandleId) := by
  unfold finishStream
  rw [if_neg (by simp [hs])]

/-- With an agreeing MAC the end-of-stream stage cannot answer
`SignatureMismatch`. -/
theorem finishStream_ne_mismatch {α : Type} (T : Config α) (hd : PayloadHeaders)
    (idb key macIn bytes : Bytes)
    (hs : T.hmacSha256 key macIn = hd.signature) :
    finishStream T hd idb key macIn bytes ≠ .error .signatureMismatch := by
  rw [finishStream_sig_eq T hd idb key macIn bytes hs]
  split
  · simp
  · simp
  · split <;> simp

/-- The end-of-stream stage never answers `RequestTooLarge`. -/
theorem finishStream_ne_large {α : Type} (T : Config α) (hd : PayloadHeaders)
    (idb key macIn bytes : Bytes) :
    finishStream T hd idb key macIn bytes ≠ .error .requestTooLarge := by
  rcases finishStream_cases T hd idb key macIn bytes with hc | hc | hc | hc | ⟨p, hc⟩ <;>
    simp [hc]

/-- If all checks before the freshness test pass but the message is older
than the window, header validation fails with `MessageTooOld`. -/
theorem read_tooOld_of (P : EventSub) (pts : Bytes → Option Int) (now : Int)
    (h : HeaderMap) (mtb : Bytes) (mt : MessageType) (raw sigB : Bytes)
    (idb tsb : Bytes) (t : Int)
    (hst : h.subscriptionType = some P.eventType)
    (hmt : h.messageType = some mtb)
    (hmt2 : messageTypeOfBytes mtb = some mt)
    (hsig : h.signature = some raw)
    (hlen : 7 < raw.length)
    (htag : raw.take 7 = sha256Tag)
    (hhex : hexDecode (raw.drop 7) = some sigB)
    (hv : h.subscriptionVersion = some P.version)
    (hid : h.id = some idb)
    (hts : h.timestamp = some tsb)
    (hpt : pts tsb = some t)
    (hold : now - t > 600) :
    readEventsubHeaders P pts now h = .error .messageTooOld := by
  simp only [readEventsubHeaders, hst, hmt, hmt2, hsig, hhex, hv, hid, hts, hpt, htag]
  rw [if_neg (by simp), if_neg (by simp [htag]; omega), if_neg (by simp), if_pos hold]

/-! ### Claims -/

/-- Claim C9: when the subscription-type header is absent, header
validation fails with `WrongSubscriptionType(expected)` — the same error as
for a present-but-unequal value — and validation can never fail with
`Missing(SubscriptionType)`, because the missing-header case is folded into
the equality filter. -/
theorem eventsub_c9 (P : EventSub) (pts : Bytes → Option Int) (now : Int)
    (h : HeaderMap) :
    (h.subscriptionType = none →
      readEventsubHeaders P pts now h = .error (.wrongSubscriptionType P.eventType)) ∧
    (∀ v, v ≠ P.eventType →
      readEventsubHeaders P pts now { h with subscriptionType := some v } =
        .error (.wrongSubscriptionType P.eventType)) ∧
    readEventsubHeaders P pts now h ≠ .error (.missing .subscriptionType) := by
  refine ⟨?_, ?_, ?_⟩
  · intro hnone
    unfold readEventsubHeaders
    rw [hnone]
  · intro v hv
    simp [readEventsubHeaders, hv]
  · intro hcon
    unfold readEventsubHeaders at hcon
    repeat' split at hcon
    all_goals simp at hcon

/-- Claim C9 witness: an absent subscription-type header and a wrong one
produce the same `WrongSubscriptionType` error. -/
theorem eventsub_c9_witness :
    readEventsubHeaders sampleP (fun _ => some 0) 0
      { hdr0 with subscriptionType := none } = .error (.wrongSubscriptionType [120]) ∧
    readEventsubHeaders sampleP (fun _ => some 0) 0
      { hdr0 with subscriptionType := some [121] } = .error (.wrongSubscriptionType [120]) :=
  ⟨(eventsub_c9 sampleP (fun _ => some 0) 0 { hdr0 with subscriptionType := none }).1 rfl,
   (eventsub_c9 sampleP (fun _ => some 0) 0 hdr0).2.1 [121] (by decide)⟩

/-- Claim C10: the freshness check bounds only the age of a message, not
future skew: whenever the parsed timestamp `t` satisfies
`now - t ≤ 600` seconds — including timestamps arbitrarily far in the
future and a timestamp exactly 10 minutes old — header validation succeeds
(in particular it does not fail with `MessageTooOld`). -/
theorem eventsub_c10 (P : EventSub) (pts : Bytes → Option Int) (now : Int)
    (h : HeaderMap) (mtb : Bytes) (mt : MessageType) (raw sigB idb tsb : Bytes) (t : Int)
    (hst : h.subscriptionType = some P.eventType)
    (hmt : h.messageType = some mtb)
    (hmt2 : messageTypeOfBytes mtb = some mt)
    (hsig : h.signature = some raw)
    (hlen : 7 < raw.length)
    (htag : raw.take 7 = sha256Tag)
    (hhex : hexDecode (raw.drop 7) = some sigB)
    (hv : h.subscriptionVersion = some P.version)
    (hid : h.id = some idb)
    (hts : h.timestamp = some tsb)
    (hpt : pts tsb = some t)
    (hfresh : now - t ≤ 600) :
    readEventsubHeaders P pts now h = .ok ⟨⟨sigB, mt⟩, idb, tsb⟩ ∧
    readEventsubHeaders P pts now h ≠ .error .messageTooOld := by
  have hok := read_ok_of P pts now h mtb mt raw sigB idb tsb t
    hst hmt hmt2 hsig hlen htag hhex hv hid hts hpt hfresh
  exact ⟨hok, by rw [hok]; exact fun hcon => Except.noConfusion hcon⟩

/-- Claim C10 witness: a timestamp one million seconds in the future and a
timestamp exactly 600 seconds old are both accepted. -/
theorem eventsub_c10_witness :
    readEventsubHeaders sampleP (fun _ => some 1000000) 0 hdr0 = .ok parsed0 ∧
    readEventsubHeaders sampleP (fun _ => some 0) 600 hdr0 = .ok parsed0 :=
  ⟨(eventsub_c10 sampleP (fun _ => some 1000000) 0 hdr0 notificationStr .notification
      (sha256Tag ++ [48, 48]) [0] [97] [98] 1000000 rfl rfl (by decide) rfl (by decide)
      (by decide) (by decide) rfl rfl rfl rfl (by decide)).1,
   (eventsub_c10 sampleP (fun _ => some 0) 600 hdr0 notificationStr .notification
      (sha256Tag ++ [48, 48]) [0] [97] [98] 0 rfl rfl (by decide) rfl (by decide)
      (by decide) (by decide) rfl rfl rfl rfl (by decide)).1⟩

/-- Claim C7: with all other headers valid, a timestamp exactly 10 minutes
and 1 second old (`now - t = 601`) is rejected with `MessageTooOld` — and
this happens during header validation, so the whole pipeline returns that
header error for every body, every secret, and every MAC primitive — while
a timestamp exactly 9 minutes 59 seconds old (`now - t = 599`) passes
header validation. -/
theorem eventsub_c7 {α : Type} (P : EventSub) (T : Config α) (h : HeaderMap)
    (mtb : Bytes) (mt : MessageType) (raw sigB idb tsb : Bytes) (t : Int)
    (hst : h.subscriptionType = some P.eventType)
    (hmt : h.messageType = some mtb)
    (hmt2 : messageTypeOfBytes mtb = some mt)
    (hsig : h.signature = some raw)
    (hlen : 7 < raw.length)
    (htag : raw.take 7 = sha256Tag)
    (hhex : hexDecode (raw.drop 7) = some sigB)
    (hv : h.subscriptionVersion = some P.version)
    (hid : h.id = some idb)
    (hts : h.timestamp = some tsb)
    (hpt : T.parseTimestamp tsb = some t) :
    (T.now - t = 601 →
      readEventsubHeaders P T.parseTimestamp T.now h = .error .messageTooOld ∧
      ∀ (T2 : Config α), T2.parseTimestamp = T.parseTimestamp → T2.now = T.now →
        ∀ body, extract P T2 h body = .error (.headers .messageTooOld)) ∧
    (T.now - t = 599 →
      readEventsubHeaders P T.parseTimestamp T.now h = .ok ⟨⟨sigB, mt⟩, idb, tsb⟩) := by
  constructor
  · intro hage
    have hfail := read_tooOld_of P T.parseTimestamp T.now h mtb mt raw sigB idb tsb t
      hst hmt hmt2 hsig hlen htag hhex hv hid hts hpt (by omega)
    refine ⟨hfail, ?_⟩
    intro T2 hp hn body
    unfold extract
    rw [hp, hn, hfail]
  · intro hage
    exact read_ok_of P T.parseTimestamp T.now h mtb mt raw sigB idb tsb t
      hst hmt hmt2 hsig hlen htag hhex hv hid hts hpt (by omega)

/-- Claim C7 witness: with `cfg7` (clock at 601) a timestamp parsing to 0
(age 601 s) makes the whole pipeline fail with `MessageTooOld` before any
body processing, while a timestamp parsing to 2 (age 599 s) passes header
validation. -/
theorem eventsub_c7_witness :
    extract sampleP cfg7 { hdr0 with timestamp := some [48] } [.chunk [1]] =
      .error (.headers .messageTooOld) ∧
    readEventsubHeaders sampleP cfg7.parseTimestamp cfg7.now hdr0 = .ok parsed0 :=
  ⟨((eventsub_c7 sampleP cfg7 { hdr0 with timestamp := some [48] } notificationStr
      .notification (sha256Tag ++ [48, 48]) [0] [97] [48] 0 rfl rfl (by decide) rfl
      (by decide) (by decide) (by decide) rfl rfl rfl (by decide)).1
      (by decide)).2 cfg7 rfl rfl [.chunk [1]],
   (eventsub_c7 sampleP cfg7 hdr0 notificationStr .notification
      (sha256Tag ++ [48, 48]) [0] [97] [98] 2 rfl rfl (by decide) rfl
      (by decide) (by decide) (by decide) rfl rfl rfl (by decide)).2 (by decide)⟩

/-- Claim C5 counterexample: header validation accepts the signature header
`"sha256=00"`, whose hex part decodes to a single byte — a signature of
length 1, not 32.  `hex::decode` imposes no length bound, so "exactly 32
bytes" is not enforced during header validation. -/
theorem eventsub_c5_cex :
    readEventsubHeaders sampleP (fun _ => some 0) 0 hdr0 = .ok parsed0 ∧
    parsed0.payload.signature.length = 1 ∧
    parsed0.payload.signature.length ≠ 32 := by
  refine ⟨by decide, by decide, by decide⟩

/-- Claim C5 (amended): when header validation succeeds, the signature is
exactly the hex decoding of whatever follows the `"sha256="` tag — of any
length `(raw.length - 7) / 2`, with no 32-byte constraint; a fixed length
is only enforced later, by the MAC comparison. -/
theorem eventsub_c5_amended (P : EventSub) (pts : Bytes → Option Int) (now : Int)
    (h : HeaderMap) (parsed : ParsedHeaders)
    (hr : readEventsubHeaders P pts now h = .ok parsed) :
    ∃ raw, h.signature = some raw ∧ 7 < raw.length ∧ raw.take 7 = sha256Tag ∧
      hexDecode (raw.drop 7) = some parsed.payload.signature ∧
      raw.length = 7 + 2 * parsed.payload.signature.length := by
  obtain ⟨-, -, ⟨raw, hsig, hlen, htag, hhex⟩, -⟩ := read_ok_inv P pts now h parsed hr
  refine ⟨raw, hsig, hlen, htag, hhex, ?_⟩
  have hdl := hexDecode_length _ _ hhex
  have hdrop : (raw.drop 7).length = raw.length - 7 := by simp
  omega

/-- Claim C5 amended witness: instantiated at the concrete header map whose
signature header is `"sha256=00"` (decoding to the 1-byte signature). -/
theorem eventsub_c5_amended_witness :
    ∃ raw, hdr0.signature = some raw ∧ 7 < raw.length ∧ raw.take 7 = sha256Tag ∧
      hexDecode (raw.drop 7) = some parsed0.payload.signature ∧
      raw.length = 7 + 2 * parsed0.payload.signature.length :=
  eventsub_c5_amended sampleP (fun _ => some 0) 0 hdr0 parsed0 (by decide)

/-- Claim C3 counterexample: a single 10,000,001-byte chunk is appended in
full — the loop checks the buffer size before appending, so the buffer in
this reachable state holds more than 10,000,000 bytes and no
`RequestTooLarge` abort happens. -/
theorem eventsub_c3_cex :
    pollBody [] [] [.chunk (List.replicate 10000001 0)] =
      .ok (List.replicate 10000001 0, List.replicate 10000001 0) ∧
    10000000 < (List.replicate 10000001 (0 : Nat)).length := by
  constructor
  · rw [pollBody_single, List.nil_append]
  · simp only [List.length_replicate]
    omega

/-- Claim C3 (amended): the buffer is bounded by
`9,999,999 + (largest chunk size)` rather than 10,000,000: a chunk is only
appended when the buffer holds at most 9,999,999 bytes, and the abort
happens when a chunk arrives with the buffer already at or past
10,000,000 bytes. -/
theorem eventsub_c3_amended (items : List ChunkItem) :
    ∀ (bytes macIn buf mi : Bytes),
    pollBody bytes macIn items = .ok (buf, mi) →
    buf.length ≤ max bytes.length (9999999 + maxChunkLen items) := by
  induction items with
  | nil =>
    intro bytes macIn buf mi hp
    simp only [pollBody, Except.ok.injEq, Prod.mk.injEq] at hp
    obtain ⟨h1, -⟩ := hp
    subst h1
    simp
  | cons i rest ih =>
    intro bytes macIn buf mi hp
    cases i with
    | ioErr => simp [pollBody] at hp
    | chunk c =>
      unfold pollBody at hp
      split at hp
      · exact absurd hp (by simp)
      · have hrec := ih (bytes ++ c) (macIn ++ c) buf mi hp
        simp only [List.length_append] at hrec
        simp only [maxChunkLen, List.foldr_cons] at *
        omega

/-- Claim C3 amended witness: a three-byte chunk respects the amended
bound. -/
theorem eventsub_c3_amended_witness :
    ([1, 2, 3] : Bytes).length ≤
      max ([] : Bytes).length (9999999 + maxChunkLen [.chunk [1, 2, 3]]) :=
  eventsub_c3_amended [.chunk [1, 2, 3]] [] [] [1, 2, 3] [1, 2, 3] (by decide)

/-- Claim C1: for every secret, id, timestamp and body (headers valid,
timestamp fresh, body within the size cap), submitting
`"sha256=" ++ hex(HMAC(secret, id ∥ timestamp ∥ body))` as the signature
header makes the signature check succeed: the MAC input is exactly the id
bytes, then the timestamp bytes, then the body bytes in arrival order, and
the pipeline proceeds to payload decoding instead of failing with
`SignatureMismatch`. -/
theorem eventsub_c1 {α : Type} (P : EventSub) (T : Config α) (h : HeaderMap)
    (parsed : ParsedHeaders) (key : Bytes) (chunks : List Bytes)
    (hread : readEventsubHeaders P T.parseTimestamp T.now h = .ok parsed)
    (hkey : T.secret = some key)
    (hsig : h.signature = some (sha256Tag ++
      hexEncode (T.hmacSha256 key
        (parsed.idBytes ++ parsed.timestampBytes ++ chunks.flatten))))
    (hmacB : ∀ b ∈ T.hmacSha256 key
      (parsed.idBytes ++ parsed.timestampBytes ++ chunks.flatten), b < 256)
    (hne : ∀ c ∈ chunks, c ≠ [])
    (hsize : chunks.flatten.length ≤ 10000000) :
    pollBody [] (parsed.idBytes ++ parsed.timestampBytes) (chunks.map .chunk) =
      .ok (chunks.flatten, parsed.idBytes ++ parsed.timestampBytes ++ chunks.flatten) ∧
    extract P T h (chunks.map .chunk) =
      (match T.decodePayload parsed.payload.messageType chunks.flatten,
             headerToStr parsed.idBytes with
       | none, _ => .error .serde
       | some _, false => .error .idNotUtf8
       | some p, true =>
         if T.checkEventId parsed.idBytes then .ok p else .error .wontHandleId) ∧
    extract P T h (chunks.map .chunk) ≠ .error .signatureMismatch := by
  obtain ⟨-, -, ⟨raw, hsigr, -, -, hhexr⟩, -⟩ :=
    read_ok_inv P T.parseTimestamp T.now h parsed hread
  rw [hsig] at hsigr
  injection hsigr with hraw
  subst hraw
  rw [drop_sha256Tag, hexDecode_hexEncode _ hmacB] at hhexr
  injection hhexr with hmac_eq
  have hpoll := pollBody_flatten chunks [] (parsed.idBytes ++ parsed.timestampBytes)
    hne (by simpa using hsize)
  rw [List.nil_append] at hpoll
  refine ⟨hpoll, ?_, ?_⟩
  · rw [extract_ok_parts P T h parsed key hread hkey, hpoll]
    exact finishStream_sig_eq T parsed.payload parsed.idBytes key _ _ hmac_eq
  · rw [extract_ok_parts P T h parsed key hread hkey, hpoll]
    exact finishStream_ne_mismatch T parsed.payload parsed.idBytes key _ _ hmac_eq

/-- Claim C1 witness: with `cfg0` (MAC `[0]`, signature header
`"sha256=00"`) a one-chunk body is accepted end to end. -/
theorem eventsub_c1_witness :
    extract sampleP cfg0 hdr0 [.chunk [123]] = .ok 7 ∧
    extract sampleP cfg0 hdr0 [.chunk [123]] ≠ .error .signatureMismatch := by
  have hc := eventsub_c1 sampleP cfg0 hdr0 parsed0 [1, 2] [[123]]
    (by decide) rfl (by decide) (by decide) (by decide) (by decide)
  exact ⟨hc.2.1, hc.2.2⟩

/-- Claim C2 counterexample: re-chunking the same byte stream changes the
verification result.  A 10,000,001-byte body delivered as one chunk is
accepted, while the same bytes delivered as a 10,000,000-byte chunk
followed by a 1-byte chunk are rejected with `RequestTooLarge`. -/
theorem eventsub_c2_cex :
    List.replicate 10000000 (0 : Nat) ++ [0] = List.replicate 10000001 (0 : Nat) ∧
    extract sampleP cfg0 hdr0 [.chunk (List.replicate 10000001 0)] = .ok 7 ∧
    extract sampleP cfg0 hdr0 [.chunk (List.replicate 10000000 0), .chunk [0]] =
      .error .requestTooLarge := by
  refine ⟨?_, ?_, ?_⟩
  · conv_rhs => rw [show (10000001 : Nat) = 10000000 + 1 from rfl, List.replicate_succ']
  · rw [extract_ok_parts sampleP cfg0 hdr0 parsed0 [1, 2] (by decide) rfl,
      pollBody_single]
    decide
  · rw [extract_ok_parts sampleP cfg0 hdr0 parsed0 [1, 2] (by decide) rfl,
      pollBody_two_large _ _ _ _ (by simp only [List.length_replicate]; omega)]

/-- Claim C2 (amended): re-chunking is harmless as long as the chunks are
non-empty and the total body size stays within the 10,000,000-byte cap;
then the verification result depends only on the concatenation. -/
theorem eventsub_c2_amended {α : Type} (P : EventSub) (T : Config α) (h : HeaderMap)
    (chunks1 chunks2 : List Bytes)
    (h1 : ∀ c ∈ chunks1, c ≠ []) (h2 : ∀ c ∈ chunks2, c ≠ [])
    (heq : chunks1.flatten = chunks2.flatten)
    (hsize : chunks1.flatten.length ≤ 10000000) :
    extract P T h (chunks1.map .chunk) = extract P T h (chunks2.map .chunk) := by
  cases hread : readEventsubHeaders P T.parseTimestamp T.now h with
  | error e =>
    rw [extract_headerFail P T h e hread (chunks1.map .chunk),
      extract_headerFail P T h e hread (chunks2.map .chunk)]
  | ok parsed =>
    cases hkey : T.secret with
    | none =>
      rw [extract_noKey P T h parsed hread hkey (chunks1.map .chunk),
        extract_noKey P T h parsed hread hkey (chunks2.map .chunk)]
    | some key =>
      rw [extract_ok_parts P T h parsed key hread hkey (chunks1.map .chunk),
        extract_ok_parts P T h parsed key hread hkey (chunks2.map .chunk),
        pollBody_flatten chunks1 [] (parsed.idBytes ++ parsed.timestampBytes) h1
          (by simpa using hsize),
        pollBody_flatten chunks2 [] (parsed.idBytes ++ parsed.timestampBytes) h2
          (by rw [← heq]; simpa using hsize),
        heq]

/-- Claim C2 amended witness: `[1, 2]` as one chunk and as two chunks
verify identically. -/
theorem eventsub_c2_amended_witness :
    extract sampleP cfg0 hdr0 [.chunk [1, 2]] =
      extract sampleP cfg0 hdr0 [.chunk [1], .chunk [2]] :=
  eventsub_c2_amended sampleP cfg0 hdr0 [[1, 2]] [[1], [2]]
    (by decide) (by decide) (by decide) (by decide)

/-- Claim C4 counterexample: a 10,000,001-byte body delivered as a single
chunk is not rejected — the pipeline reaches signature finalization and,
with a valid signature, accepts. -/
theorem eventsub_c4_cex :
    (List.replicate 10000001 (0 : Nat)).length = 10000001 ∧
    extract sampleP cfg4 hdr0 [.chunk (List.replicate 10000001 0)] = .ok 5 := by
  constructor
  · simp only [List.length_replicate]
  · rw [extract_ok_parts sampleP cfg4 hdr0 parsed0 [1, 2] (by decide) rfl,
      pollBody_single]
    decide

/-- Claim C4 (amended): a body of at most 10,000,000 bytes in non-empty
chunks is never rejected as too large (so an exactly-10,000,000-byte body
proceeds to the signature check); a single chunk of any size — including
10,000,001 bytes — is likewise never rejected; `RequestTooLarge` fires
exactly when a chunk arrives while the buffer already holds at least
10,000,000 bytes. -/
theorem eventsub_c4_amended {α : Type} :
    (∀ (P : EventSub) (T : Config α) (h : HeaderMap) (chunks : List Bytes),
      (∀ c ∈ chunks, c ≠ []) → chunks.flatten.length ≤ 10000000 →
      extract P T h (chunks.map .chunk) ≠ .error .requestTooLarge) ∧
    (∀ (P : EventSub) (T : Config α) (h : HeaderMap) (c : Bytes),
      extract P T h [.chunk c] ≠ .error .requestTooLarge) ∧
    (∀ (P : EventSub) (T : Config α) (h : HeaderMap) (parsed : ParsedHeaders)
      (key : Bytes) (c d : Bytes) (rest : List ChunkItem),
      readEventsubHeaders P T.parseTimestamp T.now h = .ok parsed →
      T.secret = some key → 10000000 ≤ c.length →
      extract P T h (.chunk c :: .chunk d :: rest) = .error .requestTooLarge) := by
  refine ⟨?_, ?_, ?_⟩
  · intro P T h chunks hne hsize
    cases hread : readEventsubHeaders P T.parseTimestamp T.now h with
    | error e => rw [extract_headerFail P T h e hread]; simp
    | ok parsed =>
      cases hkey : T.secret with
      | none => rw [extract_noKey P T h parsed hread hkey]; simp
      | some key =>
        rw [extract_ok_parts P T h parsed key hread hkey,
          pollBody_flatten chunks [] (parsed.idBytes ++ parsed.timestampBytes) hne
            (by simpa using hsize)]
        exact finishStream_ne_large T parsed.payload parsed.idBytes key _ _
  · intro P T h c
    cases hread : readEventsubHeaders P T.parseTimestamp T.now h with
    | error e => rw [extract_headerFail P T h e hread]; simp
    | ok parsed =>
      cases hkey : T.secret with
      | none => rw [extract_noKey P T h parsed hread hkey]; simp
      | some key =>
        rw [extract_ok_parts P T h parsed key hread hkey, pollBody_single]
        exact finishStream_ne_large T parsed.payload parsed.idBytes key _ _
  · intro P T h parsed key c d rest hread hkey hc
    rw [extract_ok_parts P T h parsed key hread hkey,
      pollBody_two_large _ _ _ _ hc]

/-- Claim C4 amended witness: small one-chunk bodies are not rejected, and
a 10,000,000-byte chunk followed by one more byte is rejected. -/
theorem eventsub_c4_amended_witness :
    extract sampleP cfg0 hdr0 [.chunk [1]] ≠ .error .requestTooLarge ∧
    extract sampleP cfg0 hdr0 [.chunk [2]] ≠ .error .requestTooLarge ∧
    extract sampleP cfg0 hdr0
      [.chunk (List.replicate 10000000 0), .chunk [9]] = .error .requestTooLarge := by
  obtain ⟨a, b, c⟩ := eventsub_c4_amended (α := Nat)
  exact ⟨a sampleP cfg0 hdr0 [[1]] (by decide) (by decide),
    b sampleP cfg0 hdr0 [2],
    c sampleP cfg0 hdr0 parsed0 [1, 2] (List.replicate 10000000 0) [9] []
      (by decide) rfl (by simp only [List.length_replicate]; omega)⟩

/-- Claim C8 counterexample: the id gate is `HeaderValue::to_str`
(visible ASCII), not UTF-8 validity.  The id `é` (bytes `0xC3 0xA9`) is
valid UTF-8 and the replay guard would accept it, yet the pipeline — with a
valid signature and a successful payload decode — fails with `IdNotUtf8`
instead of invoking the guard and completing `Ok`. -/
theorem eventsub_c8_cex :
    utf8Valid [195, 169] = true ∧
    cfg0.checkEventId [195, 169] = true ∧
    extract sampleP cfg0 hdr8 [.chunk [123]] = .error .idNotUtf8 := by
  refine ⟨by decide, by decide, by decide⟩

/-- Claim C8 (amended): after a successful signature check and payload
decode, the id gate is `HeaderValue::to_str` — all bytes visible ASCII or
tab, a strictly stronger condition than UTF-8 validity.  If the id bytes
fail it, the pipeline fails with `IdNotUtf8` whatever the replay guard
would answer (the outcome is independent of the guard); every id that is
not valid UTF-8 fails it; if the id passes it, the guard is consulted and
the pipeline completes `Ok(payload)` exactly when it answers `true` and
`WontHandleId` when it answers `false`. -/
theorem eventsub_c8_amended {α : Type} (P : EventSub) (T : Config α) (h : HeaderMap)
    (parsed : ParsedHeaders) (key : Bytes) (body : List ChunkItem)
    (bytes macIn : Bytes) (p : α)
    (hread : readEventsubHeaders P T.parseTimestamp T.now h = .ok parsed)
    (hkey : T.secret = some key)
    (hpoll : pollBody [] (parsed.idBytes ++ parsed.timestampBytes) body =
      .ok (bytes, macIn))
    (hs : T.hmacSha256 key macIn = parsed.payload.signature)
    (hdec : T.decodePayload parsed.payload.messageType bytes = some p) :
    (headerToStr parsed.idBytes = false →
      ∀ (T2 : Config α), T2.secret = T.secret → T2.hmacSha256 = T.hmacSha256 →
        T2.decodePayload = T.decodePayload → T2.parseTimestamp = T.parseTimestamp →
        T2.now = T.now →
        extract P T2 h body = .error .idNotUtf8) ∧
    (utf8Valid parsed.idBytes = false → headerToStr parsed.idBytes = false) ∧
    (headerToStr parsed.idBytes = true →
      extract P T h body =
        if T.checkEventId parsed.idBytes then .ok p else .error .wontHandleId) := by
  refine ⟨?_, ?_, ?_⟩
  · intro hstr T2 hsec hhm hdc hp hn
    rw [extract_ok_parts P T2 h parsed key (by rw [hp, hn]; exact hread)
        (by rw [hsec]; exact hkey), hpoll]
    show finishStream T2 parsed.payload parsed.idBytes key macIn bytes =
      .error .idNotUtf8
    rw [finishStream_sig_eq T2 parsed.payload parsed.idBytes key macIn bytes
        (by rw [hhm]; exact hs),
      hdc, hdec, hstr]
  · intro hu
    cases hts : headerToStr parsed.idBytes
    · rfl
    · exact absurd (headerToStr_utf8Valid _ hts) (by simp [hu])
  · intro hstr
    rw [extract_ok_parts P T h parsed key hread hkey, hpoll]
    show finishStream T parsed.payload parsed.idBytes key macIn bytes =
      if T.checkEventId parsed.idBytes then .ok p else .error .wontHandleId
    rw [finishStream_sig_eq T parsed.payload parsed.idBytes key macIn bytes hs,
      hdec, hstr]

/-- Claim C8 amended witness: a non-ASCII id fails with `IdNotUtf8` even
under a rejecting guard, and the ASCII id `"a"` reaches the guard and is
accepted. -/
theorem eventsub_c8_amended_witness :
    extract sampleP { cfg0 with checkEventId := fun _ => false } hdr8 [.chunk [123]] =
      .error .idNotUtf8 ∧
    extract sampleP cfg0 hdr0 [.chunk [123]] = .ok 7 := by
  constructor
  · exact (eventsub_c8_amended sampleP cfg0 hdr8 ⟨⟨[0], .notification⟩, [195, 169], [98]⟩
      [1, 2] [.chunk [123]] [123] [195, 169, 98, 123] 7
      (by decide) rfl (by decide) (by decide) (by decide)).1 (by decide)
      { cfg0 with checkEventId := fun _ => false } rfl rfl rfl rfl rfl
  · exact (eventsub_c8_amended sampleP cfg0 hdr0 parsed0
      [1, 2] [.chunk [123]] [123] [97, 98, 123] 7
      (by decide) rfl (by decide) (by decide) (by decide)).2.2 (by decide)

/-- Claim C6: checks run in a fixed order and the first applicable failure
wins.  Within header validation: subscription-type, then message-type,
then signature format (presence, length/tag, hex), then version, then id
presence, then timestamp (presence, parse, freshness) — each conjunct
below pins the reported error when that check is the first to fail,
whatever the later headers hold.  Across the pipeline: a header error is
reported before any body processing; a body streaming error before the
signature check; a signature mismatch before payload decoding; a decode
failure before the id and replay checks; and only then does the replay
guard decide. -/
theorem eventsub_c6 :
    (∀ (P : EventSub) (pts : Bytes → Option Int) (now : Int) (h : HeaderMap),
      h.subscriptionType = none →
      readEventsubHeaders P pts now h = .error (.wrongSubscriptionType P.eventType)) ∧
    (∀ (P : EventSub) (pts : Bytes → Option Int) (now : Int) (h : HeaderMap)
      (st : Bytes), h.subscriptionType = some st → st ≠ P.eventType →
      readEventsubHeaders P pts now h = .error (.wrongSubscriptionType P.eventType)) ∧
    (∀ (P : EventSub) (pts : Bytes → Option Int) (now : Int) (h : HeaderMap),
      h.subscriptionType = some P.eventType → h.messageType = none →
      readEventsubHeaders P pts now h = .error (.missing .messageType)) ∧
    (∀ (P : EventSub) (pts : Bytes → Option Int) (now : Int) (h : HeaderMap)
      (mtb : Bytes), h.subscriptionType = some P.eventType →
      h.messageType = some mtb → messageTypeOfBytes mtb = none →
      readEventsubHeaders P pts now h = .error .badMessageType) ∧
    (∀ (P : EventSub) (pts : Bytes → Option Int) (now : Int) (h : HeaderMap)
      (mtb : Bytes) (mt : MessageType), h.subscriptionType = some P.eventType →
      h.messageType = some mtb → messageTypeOfBytes mtb = some mt →
      h.signature = none →
      readEventsubHeaders P pts now h = .error (.missing .signature)) ∧
    (∀ (P : EventSub) (pts : Bytes → Option Int) (now : Int) (h : HeaderMap)
      (mtb : Bytes) (mt : MessageType) (raw : Bytes),
      h.subscriptionType = some P.eventType →
      h.messageType = some mtb → messageTypeOfBytes mtb = some mt →
      h.signature = some raw → (raw.length ≤ 7 ∨ raw.take 7 ≠ sha256Tag) →
      readEventsubHeaders P pts now h = .error .signatureTooShort) ∧
    (∀ (P : EventSub) (pts : Bytes → Option Int) (now : Int) (h : HeaderMap)
      (mtb : Bytes) (mt : MessageType) (raw : Bytes),
      h.subscriptionType = some P.eventType →
      h.messageType = some mtb → messageTypeOfBytes mtb = some mt →
      h.signature = some raw → 7 < raw.length → raw.take 7 = sha256Tag →
      hexDecode (raw.drop 7) = none →
      readEventsubHeaders P pts now h = .error .signatureNotHex) ∧
    (∀ (P : EventSub) (pts : Bytes → Option Int) (now : Int) (h : HeaderMap)
      (mtb : Bytes) (mt : MessageType) (raw sigB : Bytes),
      h.subscriptionType = some P.eventType →
      h.messageType = some mtb → messageTypeOfBytes mtb = some mt →
      h.signature = some raw → 7 < raw.length → raw.take 7 = sha256Tag →
      hexDecode (raw.drop 7) = some sigB → h.subscriptionVersion = none →
      readEventsubHeaders P pts now h = .error (.missing .subscriptionVersion)) ∧
    (∀ (P : EventSub) (pts : Bytes → Option Int) (now : Int) (h : HeaderMap)
      (mtb : Bytes) (mt : MessageType) (raw sigB vb : Bytes),
      h.subscriptionType = some P.eventType →
      h.messageType = some mtb → messageTypeOfBytes mtb = some mt →
      h.signature = some raw → 7 < raw.length → raw.take 7 = sha256Tag →
      hexDecode (raw.drop 7) = some sigB → h.subscriptionVersion = some vb →
      vb ≠ P.version →
      readEventsubHeaders P pts now h = .error (.versionMismatch P.version)) ∧
    (∀ (P : EventSub) (pts : Bytes → Option Int) (now : Int) (h : HeaderMap)
      (mtb : Bytes) (mt : MessageType) (raw sigB : Bytes),
      h.subscriptionType = some P.eventType →
      h.messageType = some mtb → messageTypeOfBytes mtb = some mt →
      h.signature = some raw → 7 < raw.length → raw.take 7 = sha256Tag →
      hexDecode (raw.drop 7) = some sigB →
      h.subscriptionVersion = some P.version → h.id = none →
      readEventsubHeaders P pts now h = .error (.missing .id)) ∧
    (∀ (P : EventSub) (pts : Bytes → Option Int) (now : Int) (h : HeaderMap)
      (mtb : Bytes) (mt : MessageType) (raw sigB idb : Bytes),
      h.subscriptionType = some P.eventType →
      h.messageType = some mtb → messageTypeOfBytes mtb = some mt →
      h.signature = some raw → 7 < raw.length → raw.take 7 = sha256Tag →
      hexDecode (raw.drop 7) = some sigB →
      h.subscriptionVersion = some P.version → h.id = some idb →
      h.timestamp = none →
      readEventsubHeaders P pts now h = .error (.missing .timestamp)) ∧
    (∀ (P : EventSub) (pts : Bytes → Option Int) (now : Int) (h : HeaderMap)
      (mtb : Bytes) (mt : MessageType) (raw sigB idb tsb : Bytes),
      h.subscriptionType = some P.eventType →
      h.messageType = some mtb → messageTypeOfBytes mtb = some mt →
      h.signature = some raw → 7 < raw.length → raw.take 7 = sha256Tag →
      hexDecode (raw.drop 7) = some sigB →
      h.subscriptionVersion = some P.version → h.id = some idb →
      h.timestamp = some tsb → pts tsb = none →
      readEventsubHeaders P pts now h = .error .badTimestamp) ∧
    (∀ (P : EventSub) (pts : Bytes → Option Int) (now : Int) (h : HeaderMap)
      (mtb : Bytes) (mt : MessageType) (raw sigB idb tsb : Bytes) (t : Int),
      h.subscriptionType = some P.eventType →
      h.messageType = some mtb → messageTypeOfBytes mtb = some mt →
      h.signature = some raw → 7 < raw.length → raw.take 7 = sha256Tag →
      hexDecode (raw.drop 7) = some sigB →
      h.subscriptionVersion = some P.version → h.id = some idb →
      h.timestamp = some tsb → pts tsb = some t → now - t > 600 →
      readEventsubHeaders P pts now h = .error .messageTooOld) ∧
    (∀ (α : Type) (P : EventSub) (T : Config α) (h : HeaderMap)
      (e : InvalidHeaders) (body : List ChunkItem),
      readEventsubHeaders P T.parseTimestamp T.now h = .error e →
      extract P T h body = .error (.headers e)) ∧
    (∀ (α : Type) (P : EventSub) (T : Config α) (h : HeaderMap)
      (parsed : ParsedHeaders) (key : Bytes) (body : List ChunkItem)
      (e : VerifyDecodeError),
      readEventsubHeaders P T.parseTimestamp T.now h = .ok parsed →
      T.secret = some key →
      pollBody [] (parsed.idBytes ++ parsed.timestampBytes) body = .error e →
      extract P T h body = .error e) ∧
    (∀ (α : Type) (P : EventSub) (T : Config α) (h : HeaderMap)
      (parsed : ParsedHeaders) (key : Bytes) (body : List ChunkItem)
      (bytes macIn : Bytes),
      readEventsubHeaders P T.parseTimestamp T.now h = .ok parsed →
      T.secret = some key →
      pollBody [] (parsed.idBytes ++ parsed.timestampBytes) body = .ok (bytes, macIn) →
      T.hmacSha256 key macIn ≠ parsed.payload.signature →
      extract P T h body = .error .signatureMismatch) ∧
    (∀ (α : Type) (P : EventSub) (T : Config α) (h : HeaderMap)
      (parsed : ParsedHeaders) (key : Bytes) (body : List ChunkItem)
      (bytes macIn : Bytes),
      readEventsubHeaders P T.parseTimestamp T.now h = .ok parsed →
      T.secret = some key →
      pollBody [] (parsed.idBytes ++ parsed.timestampBytes) body = .ok (bytes, macIn) →
      T.hmacSha256 key macIn = parsed.payload.signature →
      T.decodePayload parsed.payload.messageType bytes = none →
      extract P T h body = .error .serde) ∧
    (∀ (α : Type) (P : EventSub) (T : Config α) (h : HeaderMap)
      (parsed : ParsedHeaders) (key : Bytes) (body : List ChunkItem)
      (bytes macIn : Bytes) (p : α),
      readEventsubHeaders P T.parseTimestamp T.now h = .ok parsed →
      T.secret = some key →
      pollBody [] (parsed.idBytes ++ parsed.timestampBytes) body = .ok (bytes, macIn) →
      T.hmacSha256 key macIn = parsed.payload.signature →
      T.decodePayload parsed.payload.messageType bytes = some p →
      headerToStr parsed.idBytes = false →
      extract P T h body = .error .idNotUtf8) ∧
    (∀ (α : Type) (P : EventSub) (T : Config α) (h : HeaderMap)
      (parsed : ParsedHeaders) (key : Bytes) (body : List ChunkItem)
      (bytes macIn : Bytes) (p : α),
      readEventsubHeaders P T.parseTimestamp T.now h = .ok parsed →
      T.secret = some key →
      pollBody [] (parsed.idBytes ++ parsed.timestampBytes) body = .ok (bytes, macIn) →
      T.hmacSha256 key macIn = parsed.payload.signature →
      T.decodePayload parsed.payload.messageType bytes = some p →
      headerToStr parsed.idBytes = true →
      extract P T h body =
        if T.checkEventId parsed.idBytes then .ok p else .error .wontHandleId) := by
  refine ⟨?_, ?_, ?_, ?_, ?_, ?_, ?_, ?_, ?_, ?_, ?_, ?_, ?_, ?_, ?_, ?_, ?_, ?_, ?_⟩
  · intro P pts now h hnone
    unfold readEventsubHeaders
    rw [hnone]
  · intro P pts now h st hst hne
    simp only [readEventsubHeaders, hst]
    rw [if_pos hne]
  · intro P pts now h hst hmt
    simp only [readEventsubHeaders, hst, hmt]
    rw [if_neg (by simp)]
  · intro P pts now h mtb hst hmt hbad
    simp only [readEventsubHeaders, hst, hmt, hbad]
    rw [if_neg (by simp)]
  · intro P pts now h mtb mt hst hmt hmt2 hsig
    simp only [readEventsubHeaders, hst, hmt, hmt2, hsig]
    rw [if_neg (by simp)]
  · intro P pts now h mtb mt raw hst hmt hmt2 hsig hshort
    simp only [readEventsubHeaders, hst, hmt, hmt2, hsig]
    rw [if_neg (by simp), if_pos hshort]
  · intro P pts now h mtb mt raw hst hmt hmt2 hsig hlen htag hhexn
    simp only [readEventsubHeaders, hst, hmt, hmt2, hsig, hhexn]
    rw [if_neg (by simp), if_neg (by simp [htag]; omega)]
  · intro P pts now h mtb mt raw sigB hst hmt hmt2 hsig hlen htag hhex hvn
    simp only [readEventsubHeaders, hst, hmt, hmt2, hsig, hhex, hvn]
    rw [if_neg (by simp), if_neg (by simp [htag]; omega)]
  · intro P pts now h mtb mt raw sigB vb hst hmt hmt2 hsig hlen htag hhex hv hvne
    simp only [readEventsubHeaders, hst, hmt, hmt2, hsig, hhex, hv]
    rw [if_neg (by simp), if_neg (by simp [htag]; omega), if_pos hvne]
  · intro P pts now h mtb mt raw sigB hst hmt hmt2 hsig hlen htag hhex hv hidn
    simp only [readEventsubHeaders, hst, hmt, hmt2, hsig, hhex, hv, hidn]
    rw [if_neg (by simp), if_neg (by simp [htag]; omega), if_neg (by simp)]
  · intro P pts now h mtb mt raw sigB idb hst hmt hmt2 hsig hlen htag hhex hv hid htsn
    simp only [readEventsubHeaders, hst, hmt, hmt2, hsig, hhex, hv, hid, htsn]
    rw [if_neg (by simp), if_neg (by simp [htag]; omega), if_neg (by simp)]
  · intro P pts now h mtb mt raw sigB idb tsb hst hmt hmt2 hsig hlen htag hhex hv hid
      hts hptn
    simp only [readEventsubHeaders, hst, hmt, hmt2, hsig, hhex, hv, hid, hts, hptn]
    rw [if_neg (by simp), if_neg (by simp [htag]; omega), if_neg (by simp)]
  · intro P pts now h mtb mt raw sigB idb tsb t hst hmt hmt2 hsig hlen htag hhex hv hid
      hts hpt hold
    exact read_tooOld_of P pts now h mtb mt raw sigB idb tsb t
      hst hmt hmt2 hsig hlen htag hhex hv hid hts hpt hold
  · intro α P T h e body hread
    exact extract_headerFail P T h e hread body
  · intro α P T h parsed key body e hread hkey hpoll
    rw [extract_ok_parts P T h parsed key hread hkey, hpoll]
  · intro α P T h parsed key body bytes macIn hread hkey hpoll hne
    rw [extract_ok_parts P T h parsed key hread hkey, hpoll]
    show finishStream T parsed.payload parsed.idBytes key macIn bytes =
      .error .signatureMismatch
    unfold finishStream
    rw [if_pos hne]
  · intro α P T h parsed key body bytes macIn hread hkey hpoll hs hdec
    rw [extract_ok_parts P T h parsed key hread hkey, hpoll]
    show finishStream T parsed.payload parsed.idBytes key macIn bytes = .error .serde
    rw [finishStream_sig_eq T parsed.payload parsed.idBytes key macIn bytes hs, hdec]
  · intro α P T h parsed key body bytes macIn p hread hkey hpoll hs hdec hstr
    rw [extract_ok_parts P T h parsed key hread hkey, hpoll]
    show finishStream T parsed.payload parsed.idBytes key macIn bytes =
      .error .idNotUtf8
    rw [finishStream_sig_eq T parsed.payload parsed.idBytes key macIn bytes hs,
      hdec, hstr]
  · intro α P T h parsed key body bytes macIn p hread hkey hpoll hs hdec hstr
    rw [extract_ok_parts P T h parsed key hread hkey, hpoll]
    show finishStream T parsed.payload parsed.idBytes key macIn bytes =
      if T.checkEventId parsed.idBytes then .ok p else .error .wontHandleId
    rw [finishStream_sig_eq T parsed.payload parsed.idBytes key macIn bytes hs,
      hdec, hstr]

/-- Claim C6 witness: one concrete instance per ordering fact — each shows
the earlier check's error being reported on a request where a later check
would also fail. -/
theorem eventsub_c6_witness :
    readEventsubHeaders sampleP (fun _ => some 0) 0
      { hdr0 with subscriptionType := none } =
      .error (.wrongSubscriptionType [120]) ∧
    readEventsubHeaders sampleP (fun _ => some 0) 0
      { hdr0 with subscriptionType := some [121] } =
      .error (.wrongSubscriptionType [120]) ∧
    readEventsubHeaders sampleP (fun _ => some 0) 0
      { hdr0 with messageType := none } = .error (.missing .messageType) ∧
    readEventsubHeaders sampleP (fun _ => some 0) 0
      { hdr0 with messageType := some [122] } = .error .badMessageType ∧
    readEventsubHeaders sampleP (fun _ => some 0) 0
      { hdr0 with signature := none } = .error (.missing .signature) ∧
    readEventsubHeaders sampleP (fun _ => some 0) 0
      { hdr0 with signature := some [115] } = .error .signatureTooShort ∧
    readEventsubHeaders sampleP (fun _ => some 0) 0
      { hdr0 with signature := some (sha256Tag ++ [48]) } = .error .signatureNotHex ∧
    readEventsubHeaders sampleP (fun _ => some 0) 0
      { hdr0 with subscriptionVersion := none } =
      .error (.missing .subscriptionVersion) ∧
    readEventsubHeaders sampleP (fun _ => some 0) 0
      { hdr0 with subscriptionVersion := some [50] } = .error (.versionMismatch [49]) ∧
    readEventsubHeaders sampleP (fun _ => some 0) 0
      { hdr0 with id := none } = .error (.missing .id) ∧
    readEventsubHeaders sampleP (fun _ => some 0) 0
      { hdr0 with timestamp := none } = .error (.missing .timestamp) ∧
    readEventsubHeaders sampleP (fun _ => none) 0 hdr0 = .error .badTimestamp ∧
    readEventsubHeaders sampleP (fun _ => some 0) 601 hdr0 = .error .messageTooOld ∧
    extract sampleP cfg0 { hdr0 with subscriptionType := none } [.ioErr] =
      .error (.headers (.wrongSubscriptionType [120])) ∧
    extract sampleP cfgD hdr0 [.ioErr] = .error .payloadError ∧
    extract sampleP cfgD { hdr0 with signature := some (sha256Tag ++ [48, 49]) } [] =
      .error .signatureMismatch ∧
    extract sampleP { cfgD with checkEventId := fun _ => false } hdr0 [] =
      .error .serde ∧
    extract sampleP cfgF hdr8 [] = .error .idNotUtf8 ∧
    extract sampleP cfgF hdr0 [] = .error .wontHandleId := by
  obtain ⟨k1, k2, k3, k4, k5, k6, k7, k8, k9, k10, k11, k12, k13, k14, k15, k16,
    k17, k18, k19⟩ := eventsub_c6
  refine ⟨k1 sampleP (fun _ => some 0) 0 _ rfl,
    k2 sampleP (fun _ => some 0) 0 _ [121] rfl (by decide),
    k3 sampleP (fun _ => some 0) 0 _ rfl rfl,
    k4 sampleP (fun _ => some 0) 0 _ [122] rfl rfl (by decide),
    k5 sampleP (fun _ => some 0) 0 _ notificationStr .notification rfl rfl
      (by decide) rfl,
    k6 sampleP (fun _ => some 0) 0 _ notificationStr .notification [115] rfl rfl
      (by decide) rfl (by decide),
    k7 sampleP (fun _ => some 0) 0 _ notificationStr .notification
      (sha256Tag ++ [48]) rfl rfl (by decide) rfl (by decide) (by decide) (by decide),
    k8 sampleP (fun _ => some 0) 0 _ notificationStr .notification
      (sha256Tag ++ [48, 48]) [0] rfl rfl (by decide) rfl (by decide) (by decide)
      (by decide) rfl,
    k9 sampleP (fun _ => some 0) 0 _ notificationStr .notification
      (sha256Tag ++ [48, 48]) [0] [50] rfl rfl (by decide) rfl (by decide) (by decide)
      (by decide) rfl (by decide),
    k10 sampleP (fun _ => some 0) 0 _ notificationStr .notification
      (sha256Tag ++ [48, 48]) [0] rfl rfl (by decide) rfl (by decide) (by decide)
      (by decide) rfl rfl,
    k11 sampleP (fun _ => some 0) 0 _ notificationStr .notification
      (sha256Tag ++ [48, 48]) [0] [97] rfl rfl (by decide) rfl (by decide) (by decide)
      (by decide) rfl rfl rfl,
    k12 sampleP (fun _ => none) 0 hdr0 notificationStr .notification
      (sha256Tag ++ [48, 48]) [0] [97] [98] rfl rfl (by decide) rfl (by decide)
      (by decide) (by decide) rfl rfl rfl rfl,
    k13 sampleP (fun _ => some 0) 601 hdr0 notificationStr .notification
      (sha256Tag ++ [48, 48]) [0] [97] [98] 0 rfl rfl (by decide) rfl (by decide)
      (by decide) (by decide) rfl rfl rfl rfl (by decide),
    k14 Nat sampleP cfg0 _ (.wrongSubscriptionType [120]) [.ioErr] (by decide),
    k15 Nat sampleP cfgD hdr0 parsed0 [1, 2] [.ioErr] .payloadError (by decide) rfl
      (by decide),
    k16 Nat sampleP cfgD _ ⟨⟨[1], .notification⟩, [97], [98]⟩ [1, 2] [] [] [97, 98]
      (by decide) rfl (by decide) (by decide),
    k17 Nat sampleP { cfgD with checkEventId := fun _ => false } hdr0 parsed0 [1, 2]
      [] [] [97, 98] (by decide) rfl (by decide) (by decide) (by decide),
    k18 Nat sampleP cfgF hdr8 ⟨⟨[0], .notification⟩, [195, 169], [98]⟩ [1, 2] [] []
      [195, 169, 98] 7 (by decide) rfl (by decide) (by decide) (by decide) (by decide),
    k19 Nat sampleP cfgF hdr0 parsed0 [1, 2] [] [] [97, 98] 7 (by decide) rfl
      (by decide) (by decide) (by decide) (by decide)⟩

end Eventsub
